import Mathlib

/-!
Shallow embedding of `src/app/src/main/cpp/whisper_jni.cpp`, the JNI bridge
between the managed caller (`SpeechRecognitionThread`) and the whisper.cpp
inference engine.  The engine itself is opaque: each call's observable
engine behaviour (the `whisper_full` status code, the segment texts, and any
writes the engine could make through the samples pointer) is an oracle input
to the embedded function.  JNI-environment fallibility (null returns from
`GetStringUTFChars` / `GetFloatArrayElements`) is likewise an explicit input.
-/

/-- Sampling strategies of `whisper_full_default_params`; the code passes
`WHISPER_SAMPLING_GREEDY`. -/
inductive WhisperSamplingStrategy where
  | greedy
  | beamSearch
deriving DecidableEq

/-- The fields of `whisper_full_params` that `transcribeAudio` touches,
plus the sampling strategy chosen via `whisper_full_default_params`. -/
structure WhisperFullParams where
  strategy : WhisperSamplingStrategy
  print_realtime : Bool
  print_progress : Bool
  print_timestamps : Bool
  print_special : Bool
  translate : Bool
  language : String
  n_threads : Int
  offset_ms : Int
  duration_ms : Int
deriving DecidableEq

/-- Lines 63-74 of `whisper_jni.cpp`: start from
`whisper_full_default_params(WHISPER_SAMPLING_GREEDY)` and override the
listed fields.  `defaults` is the opaque engine-provided default-parameter
constructor. -/
def transcribeWparams (defaults : WhisperSamplingStrategy → WhisperFullParams) :
    WhisperFullParams :=
  let wparams := defaults WhisperSamplingStrategy.greedy
  { wparams with
    print_realtime := false
    print_progress := false
    print_timestamps := false
    print_special := false
    translate := false
    language := "en"
    n_threads := 1
    offset_ms := 0
    duration_ms := 0 }

/-- Oracle for one inference call: the status code returned by
`whisper_full`, the per-index results of `whisper_full_get_segment_text`
(`none` models a null `const char *`), and the writes the engine could make
through the samples pointer (`whisper_full` takes `const float *`, but the
JNI array slot is modelled conservatively as writable). -/
structure EngineResult (α : Type) where
  status : Int
  segments : List (Option String)
  scratch : List α → List α

/-- Third argument of `ReleaseFloatArrayElements`: `0` copies the working
buffer back, `JNI_ABORT` discards it. -/
inductive ReleaseMode where
  | commit
  | abort
deriving DecidableEq

/-- JNI semantics of `ReleaseFloatArrayElements`: the array contents after
the call, given the original contents, the (possibly modified) working
buffer, and the mode. -/
def releaseFloatArrayElements {α : Type} (original working : List α) :
    ReleaseMode → List α
  | ReleaseMode.commit => working
  | ReleaseMode.abort => original

/-- Loop body of the segment-concatenation loop (lines 98-105): a segment
with a null text is skipped entirely; otherwise a space is appended first
whenever `i > 0`. -/
def concatStep (fullText : String) (p : Nat × Option String) : String :=
  match p.2 with
  | none => fullText
  | some text => (if 0 < p.1 then fullText ++ " " else fullText) ++ text

/-- Lines 97-105: fold `concatStep` over the indexed segments, starting
from the empty `fullText`. -/
def concatSegments (segments : List (Option String)) : String :=
  segments.enum.foldl concatStep ""

/-- Observable outcome of one `transcribeAudio` call: the returned
`jstring` (`none` models a null return), the audio-array contents after the
call, and the `whisper_full_params` value built for the call (`none` when
an early return happens before the parameters are built). -/
structure TranscribeResult (α : Type) where
  result : Option String
  finalAudio : List α
  paramsUsed : Option WhisperFullParams
deriving DecidableEq

/-- Lines 40-108, `Java_com_chiller3_bcr_SpeechRecognitionThread_transcribeAudio`:
null-context check, `GetFloatArrayElements` with its null check, parameter
construction, the `whisper_full` call, `ReleaseFloatArrayElements` with
`JNI_ABORT`, the status-code check, the zero-segment special case, and the
concatenation loop.  `sampleRate` is only logged by the code and is unused. -/
def transcribeAudio {α : Type} (defaults : WhisperSamplingStrategy → WhisperFullParams)
    (engine : EngineResult α) (contextPtr : Int) (audioData : List α)
    (sampleRate : Int) (getElemsOk : Bool) : TranscribeResult α :=
  let _ := sampleRate
  if contextPtr = 0 then
    { result := none, finalAudio := audioData, paramsUsed := none }
  else if getElemsOk = false then
    { result := none, finalAudio := audioData, paramsUsed := none }
  else
    let wparams := transcribeWparams defaults
    let finalAudio :=
      releaseFloatArrayElements audioData (engine.scratch audioData) ReleaseMode.abort
    if engine.status ≠ 0 then
      { result := none, finalAudio := finalAudio, paramsUsed := some wparams }
    else if engine.segments.length = 0 then
      { result := some "", finalAudio := finalAudio, paramsUsed := some wparams }
    else
      { result := some (concatSegments engine.segments), finalAudio := finalAudio,
        paramsUsed := some wparams }

/-- Lines 13-38, `Java_com_chiller3_bcr_SpeechRecognitionThread_initWhisper`:
`getStringOk` models whether `GetStringUTFChars` returned non-null;
`loadResult` models the context pointer produced by
`whisper_init_from_file_with_params` (`none` for a null pointer; a non-null
pointer has a nonzero address, hence `ℕ+`). -/
def initWhisper (getStringOk : Bool) (loadResult : Option ℕ+) : Int :=
  if getStringOk = false then 0
  else
    match loadResult with
    | none => 0
    | some ctx => ((ctx : ℕ) : Int)

/-- Lines 111-118, `Java_com_chiller3_bcr_SpeechRecognitionThread_freeWhisper`:
the returned list records the contexts passed to `whisper_free`, in order. -/
def freeWhisper (contextPtr : Int) : List Int :=
  if contextPtr = 0 then [] else [contextPtr]

/-- Plain concatenation of a list of strings, used to state join rules. -/
def concatAll : List String → String
  | [] => ""
  | s :: rest => s ++ concatAll rest

/-- Modelled from the spec (§4.3 and C3): the strict index-based join rule,
in which a single space is inserted before every segment except the first
independent of whether that segment's text was retrievable, and a segment
yielding no text contributes no text of its own. -/
def specStrictJoin (segments : List (Option String)) : String :=
  concatAll (segments.enum.map fun p => (if 0 < p.1 then " " else "") ++ p.2.getD "")

/-- Contribution of the segment at position `pos` under the rule the code
implements: nothing at all when the text is unretrievable, otherwise a
space (for non-first positions) followed by the text. -/
def segContribution (pos : Nat) : Option String → String
  | none => ""
  | some text => (if 0 < pos then " " else "") ++ text

/-- The amended join rule: concatenation of the per-segment contributions,
where a null-text segment contributes nothing, not even a separator. -/
def amendedJoin (segments : List (Option String)) : String :=
  concatAll (segments.enum.map fun p => segContribution p.1 p.2)

/-- Modelled from the spec (§8 property 6): space-joined concatenation of
segment texts in index order. -/
def spaceJoined : List String → String
  | [] => ""
  | [t] => t
  | t :: rest => t ++ " " ++ spaceJoined rest

/-- Concrete default-parameter constructor used by witnesses: deliberately
sets every overridable field to a value different from what
`transcribeWparams` installs. -/
def defaultParams0 : WhisperSamplingStrategy → WhisperFullParams :=
  fun s => ⟨s, true, true, true, true, true, "auto", 4, 5, 7⟩

lemma foldl_concatStep_enumFrom (l : List (Option String)) :
    ∀ (n : Nat) (acc : String),
      (List.enumFrom (n + 1) l).foldl concatStep acc =
        acc ++ concatAll (l.map (segContribution 1)) := by
  induction l with
  | nil => intro n acc; simp [concatAll, String.append_empty]
  | cons s l ih =>
    intro n acc
    rw [List.enumFrom_cons, List.foldl_cons, List.map_cons]
    show (List.enumFrom (n + 1 + 1) l).foldl concatStep (concatStep acc (n + 1, s)) =
      acc ++ concatAll (segContribution 1 s :: l.map (segContribution 1))
    rw [ih (n + 1)]
    cases s with
    | none => simp [concatStep, segContribution, concatAll, String.empty_append]
    | some t =>
      simp only [concatStep, segContribution, concatAll, Nat.succ_pos, if_pos,
        Nat.zero_lt_one, String.append_assoc]

lemma segContribution_succ (n : Nat) (s : Option String) :
    segContribution (n + 1) s = segContribution 1 s := by
  cases s <;> simp [segContribution]

lemma concatAll_enumFrom_map (l : List (Option String)) :
    ∀ n : Nat,
      concatAll ((List.enumFrom (n + 1) l).map fun p => segContribution p.1 p.2) =
        concatAll (l.map (segContribution 1)) := by
  induction l with
  | nil => intro n; rfl
  | cons s l ih =>
    intro n
    rw [List.enumFrom_cons, List.map_cons, List.map_cons]
    show concatAll (segContribution (n + 1) s :: _) = _
    rw [concatAll, concatAll, segContribution_succ, ih (n + 1)]

lemma concatSegments_eq_amendedJoin (segments : List (Option String)) :
    concatSegments segments = amendedJoin segments := by
  cases segments with
  | nil => rfl
  | cons s l =>
    rw [concatSegments, amendedJoin, List.enum_cons, List.foldl_cons,
      foldl_concatStep_enumFrom l 0, List.map_cons, concatAll,
      concatAll_enumFrom_map l 0]
    cases s with
    | none => simp [concatStep, segContribution, String.empty_append]
    | some t => simp [concatStep, segContribution, String.empty_append]

lemma spaceJoined_cons (t : String) (rest : List String) :
    spaceJoined (t :: rest) = t ++ concatAll (rest.map fun r => " " ++ r) := by
  induction rest generalizing t with
  | nil => simp [spaceJoined, concatAll, String.append_empty]
  | cons r rs ih =>
    show t ++ " " ++ spaceJoined (r :: rs) = _
    rw [ih r, List.map_cons, concatAll, String.append_assoc, String.append_assoc]

lemma concatSegments_map_some (texts : List String) :
    concatSegments (texts.map some) = spaceJoined texts := by
  cases texts with
  | nil => rfl
  | cons t rest =>
    rw [List.map_cons, concatSegments, List.enum_cons, List.foldl_cons,
      foldl_concatStep_enumFrom _ 0, spaceJoined_cons, List.map_map]
    have h1 : concatStep "" (0, some t) = t := by
      simp [concatStep, String.empty_append]
    have h2 : (segContribution 1 ∘ some) = fun r => " " ++ r := by
      funext r; simp [segContribution, Function.comp]
    rw [h1, h2]

lemma foldl_concatStep_replicate_none :
    ∀ (n k : Nat) (acc : String),
      (List.enumFrom k (List.replicate n none)).foldl concatStep acc = acc := by
  intro n
  induction n with
  | zero => intro k acc; rfl
  | succ n ih =>
    intro k acc
    rw [List.replicate_succ, List.enumFrom_cons, List.foldl_cons]
    exact ih (k + 1) acc

lemma concatSegments_replicate_none (n : Nat) :
    concatSegments (List.replicate n none) = "" := by
  rw [concatSegments]
  show (List.enumFrom 0 (List.replicate n none)).foldl concatStep "" = ""
  exact foldl_concatStep_replicate_none n 0 ""

/-- C1: when the inference engine returns status zero and detects zero
segments, `transcribeAudio` returns the empty string (a valid success
value), not the absent value. -/
theorem C1_zero_segments_empty_string {α : Type}
    (defaults : WhisperSamplingStrategy → WhisperFullParams) (engine : EngineResult α)
    (contextPtr : Int) (audioData : List α) (sampleRate : Int)
    (hctx : contextPtr ≠ 0) (hstatus : engine.status = 0)
    (hsegs : engine.segments = []) :
    (transcribeAudio defaults engine contextPtr audioData sampleRate true).result =
      some "" := by
  simp [transcribeAudio, hctx, hstatus, hsegs]

/-- Witness for C1 at a concrete engine outcome and handle. -/
theorem C1_witness :
    (transcribeAudio defaultParams0 ⟨0, [], id⟩ 1 ([] : List Nat) 16000 true).result =
      some "" :=
  C1_zero_segments_empty_string defaultParams0 ⟨0, [], id⟩ 1 [] 16000 (by decide) rfl rfl

/-- C2: a call of `transcribeAudio` with the zero handle returns the absent
value regardless of the audio buffer, sample rate, engine outcome, and JNI
marshalling outcome; totality of the definition models absence of a crash. -/
theorem C2_zero_handle_absent {α : Type}
    (defaults : WhisperSamplingStrategy → WhisperFullParams) (engine : EngineResult α)
    (audioData : List α) (sampleRate : Int) (getElemsOk : Bool) :
    (transcribeAudio defaults engine 0 audioData sampleRate getElemsOk).result = none := by
  simp [transcribeAudio]

/-- C3 counterexample: on segments `[some "a", none]` the code yields
`"a"` while the claimed strict index-based join rule yields `"a "`, so the
claim as stated is false. -/
theorem C3_counterexample :
    concatSegments [some "a", none] = "a" ∧
      specStrictJoin [some "a", none] = "a " ∧
      concatSegments [some "a", none] ≠ specStrictJoin [some "a", none] :=
  ⟨rfl, rfl, by decide⟩

/-- C3 amended: the assembled result inserts a single space before every
segment except the first WHOSE TEXT IS RETRIEVABLE; a segment yielding no
text contributes nothing, not even a separator, and in particular no space
is inserted on behalf of a null-text segment at a positive index. -/
theorem C3_amended_join_rule {α : Type}
    (defaults : WhisperSamplingStrategy → WhisperFullParams) (engine : EngineResult α)
    (contextPtr : Int) (audioData : List α) (sampleRate : Int)
    (hctx : contextPtr ≠ 0) (hstatus : engine.status = 0) :
    (transcribeAudio defaults engine contextPtr audioData sampleRate true).result =
      some (amendedJoin engine.segments) := by
  by_cases hlen : engine.segments.length = 0
  · rw [List.length_eq_zero] at hlen
    simp [transcribeAudio, hctx, hstatus, hlen, amendedJoin, concatAll]
  · simp [transcribeAudio, hctx, hstatus, hlen, concatSegments_eq_amendedJoin]

/-- Witness for C3's amended theorem at a concrete input containing a
null-text segment. -/
theorem C3_amended_witness :
    (transcribeAudio defaultParams0 ⟨0, [some "a", none], id⟩ 1 ([] : List Nat)
      16000 true).result = some (amendedJoin [some "a", none]) :=
  C3_amended_join_rule defaultParams0 ⟨0, [some "a", none], id⟩ 1 [] 16000
    (by decide) rfl

/-- C4: when every segment text is retrievable, the result equals the
space-joined concatenation of the texts in index order. -/
theorem C4_space_joined_concatenation {α : Type}
    (defaults : WhisperSamplingStrategy → WhisperFullParams) (engine : EngineResult α)
    (contextPtr : Int) (audioData : List α) (sampleRate : Int) (texts : List String)
    (hctx : contextPtr ≠ 0) (hstatus : engine.status = 0)
    (hsegs : engine.segments = texts.map some) :
    (transcribeAudio defaults engine contextPtr audioData sampleRate true).result =
      some (spaceJoined texts) := by
  by_cases hlen : engine.segments.length = 0
  · rw [List.length_eq_zero] at hlen
    rw [hlen] at hsegs
    have : texts = [] := by
      cases texts with
      | nil => rfl
      | cons t r => simp at hsegs
    subst this
    simp [transcribeAudio, hctx, hstatus, hlen, spaceJoined]
  · have htne : texts ≠ [] := by
      intro h
      rw [h] at hsegs
      simp only [List.map_nil] at hsegs
      rw [hsegs] at hlen
      exact hlen rfl
    simp [transcribeAudio, hctx, hstatus, hlen, hsegs, concatSegments_map_some, htne]

/-- Witness for C4: segments `["hello", "world"]` produce `"hello world"`. -/
theorem C4_witness :
    (transcribeAudio defaultParams0 ⟨0, [some "hello", some "world"], id⟩ 1
        ([] : List Nat) 16000 true).result = some (spaceJoined ["hello", "world"]) ∧
      spaceJoined ["hello", "world"] = "hello world" :=
  ⟨C4_space_joined_concatenation defaultParams0 ⟨0, [some "hello", some "world"], id⟩ 1
      [] 16000 ["hello", "world"] (by decide) rfl rfl,
    rfl⟩

/-- C5: `initWhisper` returns the zero sentinel when the path string cannot
be obtained or model loading fails, and a nonzero handle on success;
totality of the definition models absence of an exception. -/
theorem C5_init_sentinel (getStringOk : Bool) (loadResult : Option ℕ+) :
    (getStringOk = false ∨ loadResult = none →
      initWhisper getStringOk loadResult = 0) ∧
    (∀ ctx : ℕ+, getStringOk = true → loadResult = some ctx →
      initWhisper getStringOk loadResult ≠ 0) := by
  constructor
  · rintro (h | h) <;> cases getStringOk <;> simp_all [initWhisper]
  · intro ctx hg hl
    simp only [initWhisper, hg, hl]
    simp only [Bool.true_eq_false, if_false]
    exact_mod_cast ctx.ne_zero

/-- Witness for C5 at concrete failure and success inputs. -/
theorem C5_witness :
    initWhisper false none = 0 ∧ initWhisper true (some 5) ≠ 0 :=
  ⟨(C5_init_sentinel false none).1 (Or.inl rfl),
    (C5_init_sentinel true (some 5)).2 5 rfl rfl⟩

/-- C6: a non-zero engine status yields the absent result, and the caller's
audio buffer is unchanged after the call (atomicity on error). -/
theorem C6_inference_failure_atomic {α : Type}
    (defaults : WhisperSamplingStrategy → WhisperFullParams) (engine : EngineResult α)
    (contextPtr : Int) (audioData : List α) (sampleRate : Int)
    (hctx : contextPtr ≠ 0) (hstatus : engine.status ≠ 0) :
    (transcribeAudio defaults engine contextPtr audioData sampleRate true).result =
        none ∧
      (transcribeAudio defaults engine contextPtr audioData sampleRate true).finalAudio =
        audioData := by
  constructor <;> simp [transcribeAudio, hctx, hstatus, releaseFloatArrayElements]

/-- Witness for C6 at a concrete failing engine status, with an engine that
scribbles over the working buffer. -/
theorem C6_witness :
    (transcribeAudio defaultParams0 ⟨1, [some "x"], fun _ => [9, 9]⟩ 2
        ([3, 4, 5] : List Nat) 16000 true).result = none ∧
      (transcribeAudio defaultParams0 ⟨1, [some "x"], fun _ => [9, 9]⟩ 2
        ([3, 4, 5] : List Nat) 16000 true).finalAudio = [3, 4, 5] :=
  C6_inference_failure_atomic defaultParams0 ⟨1, [some "x"], fun _ => [9, 9]⟩ 2
    [3, 4, 5] 16000 (by decide) (by decide)

/-- C7: every `transcribeAudio` call that reaches the inference step builds
a fresh parameter value with exactly greedy decoding, translation disabled,
the fixed language hint "en", a single inference thread, all print flags
disabled, and zero offset and duration. -/
theorem C7_params_exact {α : Type}
    (defaults : WhisperSamplingStrategy → WhisperFullParams)
    (engine : EngineResult α) (contextPtr : Int) (audioData : List α)
    (sampleRate : Int)
    (hdef : ∀ s, (defaults s).strategy = s) (hctx : contextPtr ≠ 0) :
    (transcribeAudio defaults engine contextPtr audioData sampleRate true).paramsUsed =
      some
        { strategy := WhisperSamplingStrategy.greedy
          print_realtime := false
          print_progress := false
          print_timestamps := false
          print_special := false
          translate := false
          language := "en"
          n_threads := 1
          offset_ms := 0
          duration_ms := 0 } := by
  have hp : transcribeWparams defaults =
      { strategy := WhisperSamplingStrategy.greedy, print_realtime := false,
        print_progress := false, print_timestamps := false, print_special := false,
        translate := false, language := "en", n_threads := 1, offset_ms := 0,
        duration_ms := 0 } := by
    simp [transcribeWparams, hdef WhisperSamplingStrategy.greedy]
  by_cases hstatus : engine.status = 0
  · by_cases hlen : engine.segments.length = 0 <;>
      simp [transcribeAudio, hctx, hstatus, hlen, hp]
  · simp [transcribeAudio, hctx, hstatus, hp]

/-- Witness for C7 with a default-parameter constructor whose overridable
fields all start at non-final values. -/
theorem C7_witness :
    (transcribeAudio defaultParams0 ⟨0, [], id⟩ 1 ([] : List Nat) 16000
        true).paramsUsed =
      some
        { strategy := WhisperSamplingStrategy.greedy
          print_realtime := false
          print_progress := false
          print_timestamps := false
          print_special := false
          translate := false
          language := "en"
          n_threads := 1
          offset_ms := 0
          duration_ms := 0 } :=
  C7_params_exact defaultParams0 ⟨0, [], id⟩ 1 [] 16000 (fun s => rfl) (by decide)

/-- C8: `freeWhisper 0` frees nothing (a no-op; totality models that it
never fails), and `freeWhisper h` for nonzero `h` frees exactly the context
`h`, exactly once. -/
theorem C8_free_sentinel_noop (h : Int) :
    freeWhisper 0 = [] ∧ (h ≠ 0 → freeWhisper h = [h]) := by
  constructor
  · rfl
  · intro hh; simp [freeWhisper, hh]

/-- Witness for C8 at the concrete handle 7. -/
theorem C8_witness : freeWhisper 0 = [] ∧ freeWhisper 7 = [7] :=
  ⟨(C8_free_sentinel_noop 7).1, (C8_free_sentinel_noop 7).2 (by decide)⟩

/-- C9: the result is absent exactly when the handle is zero, the audio
elements cannot be obtained, or the engine status is nonzero; and with a
zero status, segments that are all null yield the empty string, just like
zero segments. -/
theorem C9_absent_iff {α : Type}
    (defaults : WhisperSamplingStrategy → WhisperFullParams) (engine : EngineResult α)
    (contextPtr : Int) (audioData : List α) (sampleRate : Int) (getElemsOk : Bool) :
    ((transcribeAudio defaults engine contextPtr audioData sampleRate
        getElemsOk).result = none ↔
      contextPtr = 0 ∨ getElemsOk = false ∨ engine.status ≠ 0) ∧
    (∀ n : Nat, contextPtr ≠ 0 → getElemsOk = true → engine.status = 0 →
      engine.segments = List.replicate n none →
      (transcribeAudio defaults engine contextPtr audioData sampleRate
        getElemsOk).result = some "") := by
  constructor
  · by_cases hctx : contextPtr = 0
    · simp [transcribeAudio, hctx]
    · by_cases hok : getElemsOk = false
      · simp [transcribeAudio, hctx, hok]
      · by_cases hstatus : engine.status = 0
        · by_cases hlen : engine.segments.length = 0 <;>
            simp [transcribeAudio, hctx, hok, hstatus, hlen]
        · simp [transcribeAudio, hctx, hok, hstatus]
  · intro n hctx hok hstatus hsegs
    subst hok
    by_cases hlen : engine.segments.length = 0
    · simp [transcribeAudio, hctx, hstatus, hlen]
    · simp [transcribeAudio, hctx, hstatus, hlen, hsegs,
        concatSegments_replicate_none]

/-- Witness for C9: two all-null segments still yield the empty string. -/
theorem C9_witness :
    (transcribeAudio defaultParams0 ⟨0, List.replicate 2 none, id⟩ 3
        ([] : List Nat) 8000 true).result = some "" :=
  (C9_absent_iff defaultParams0 ⟨0, List.replicate 2 none, id⟩ 3 [] 8000 true).2 2
    (by decide) rfl rfl rfl

/-- C10: the caller's audio buffer is unchanged by every call, successful
or failed, because the elements are released with `JNI_ABORT` (no
write-back), even if the engine wrote through the samples pointer. -/
theorem C10_audio_unchanged {α : Type}
    (defaults : WhisperSamplingStrategy → WhisperFullParams) (engine : EngineResult α)
    (contextPtr : Int) (audioData : List α) (sampleRate : Int) (getElemsOk : Bool) :
    (transcribeAudio defaults engine contextPtr audioData sampleRate
      getElemsOk).finalAudio = audioData := by
  by_cases hctx : contextPtr = 0
  · simp [transcribeAudio, hctx]
  · by_cases hok : getElemsOk = false
    · simp [transcribeAudio, hctx, hok]
    · by_cases hstatus : engine.status = 0
      · by_cases hlen : engine.segments.length = 0 <;>
          simp [transcribeAudio, hctx, hok, hstatus, hlen, releaseFloatArrayElements]
      · simp [transcribeAudio, hctx, hok, hstatus, releaseFloatArrayElements]
